import Mathlib

/-!
Verification development for the Toggl ingestion function
(`src/function_app.py`, `ingest_toggl_data`).

The Python function is shallowly embedded: JSON values become an inductive
`JVal`, the flattening loop body becomes `flattenEntry`, the pagination
`while True` loop becomes the structurally recursive `runLoop` over the
finite list of page responses the upstream API would serve, and the whole
HTTP handler becomes `ingest_toggl_data`.  Database activity and outbound
calls are recorded as an explicit event trace; the staging table is modelled
as a pending/committed pair of row lists (closing an uncommitted session
discards pending rows).
-/

namespace TogglPipeline

/-- A JSON value as decoded by `response.json()` / `req.get_json()`.
Numbers are modelled as integers (no claim depends on floats). -/
inductive JVal where
  | null : JVal
  | bool : Bool → JVal
  | num : Int → JVal
  | str : String → JVal
  | arr : List JVal → JVal
  | obj : List (String × JVal) → JVal
deriving Repr

/-- Python truthiness of a decoded JSON value (`if not x`). -/
def truthy : JVal → Bool
  | JVal.null => false
  | JVal.bool b => b
  | JVal.num n => n != 0
  | JVal.str s => s != ""
  | JVal.arr xs => !xs.isEmpty
  | JVal.obj fs => !fs.isEmpty

/-- Python `d.get(k)` on a decoded JSON object: `None` (here `JVal.null`) when the
key is absent. -/
def getKey (fields : List (String × JVal)) (k : String) : JVal :=
  (fields.lookup k).getD JVal.null

/-- One flattened tuple appended to `rows_to_insert`
(`src/function_app.py` lines 97-108), fields in the positional order of the
staging schema `[dbo].[StageTogglTimeEntries]`. -/
structure StagingRow where
  toggl_time_entry_id : JVal
  user_id : JVal
  project_id : JVal
  task_id : JVal
  billable : JVal
  description : JVal
  start_time : JVal
  stop_time : JVal
  duration_seconds : JVal
  updated_at : JVal
deriving Repr

/-- The fields of a row in the fixed positional order of the staging schema. -/
def StagingRow.toTuple (r : StagingRow) : List JVal :=
  [r.toggl_time_entry_id, r.user_id, r.project_id, r.task_id, r.billable,
   r.description, r.start_time, r.stop_time, r.duration_seconds, r.updated_at]

/-- Python exceptions that can escape the loop body into the outer
`except Exception` handler. `noMoreResponses` is a model artifact: the loop
asked for a page beyond the finite oracle of responses. -/
inductive PyExc where
  | keyError : String → PyExc
  | valueError : String → PyExc
  | httpError : Nat → PyExc
  | typeError : PyExc
  | attributeError : PyExc
  | dbError : PyExc
  | connectError : PyExc
  | noMoreResponses : PyExc
deriving Repr, DecidableEq

/-- The loop body of `for entry in data` (lines 86-109): either skip the
entry (`Option.none`), produce one row, or raise.  The source also computes
`is_billable = 1 if entry.get('billable') else 0` (line 94) but that
variable is never used in the row tuple; the tuple stores the raw
`entry.get('billable')` (line 102). -/
def flattenEntry (entry : JVal) : Except PyExc (Option StagingRow) :=
  match entry with
  | JVal.obj fields =>
    -- if not entry.get('time_entries'): continue
    if truthy (getKey fields "time_entries") = false then Except.ok Option.none
    else
      match getKey fields "time_entries" with
      | JVal.arr (d :: _) =>
        match d with
        | JVal.obj dfields =>
          Except.ok (Option.some
            { toggl_time_entry_id := getKey dfields "id"
              user_id := getKey fields "user_id"
              project_id := getKey fields "project_id"
              task_id := getKey fields "task_id"
              billable := getKey fields "billable"
              description := getKey fields "description"
              start_time := getKey dfields "start"
              stop_time := getKey dfields "stop"
              duration_seconds := getKey dfields "seconds"
              updated_at := getKey dfields "at" })
        -- details.get(...) on a non-dict first element raises
        | _ => Except.error PyExc.attributeError
      -- entry['time_entries'][0] on a truthy non-list raises
      | _ => Except.error PyExc.typeError
  -- entry.get(...) on a non-dict entry raises
  | _ => Except.error PyExc.attributeError

/-- Builds `rows_to_insert` for one page, in page order. -/
def flattenEntries : List JVal → Except PyExc (List StagingRow)
  | [] => Except.ok []
  | e :: es =>
    match flattenEntry e with
    | Except.error exc => Except.error exc
    | Except.ok Option.none => flattenEntries es
    | Except.ok (Option.some row) =>
      match flattenEntries es with
      | Except.error exc => Except.error exc
      | Except.ok rows => Except.ok (row :: rows)

/-- Iteration `for entry in data` over the decoded page body: iterating a truthy
non-list JSON body makes the loop body raise. -/
def pageRows (data : JVal) : Except PyExc (List StagingRow) :=
  match data with
  | JVal.arr entries => flattenEntries entries
  | _ => Except.error PyExc.typeError

/-- Observable side effects of one invocation: outbound API calls and
database operations, in program order. -/
inductive Event where
  | connect : Event
  | truncate : Event
  | commit : Event
  | apiCall : Int → Event
  | insert : List StagingRow → Event
  | close : Event
deriving Repr

/-- One upstream response served to an iteration of the pagination loop.
`insertFails` is the storage oracle for this page: when true, the
`cursor.executemany` issued for this page's (non-empty) batch raises. -/
structure PageResponse where
  status : Nat
  data : JVal
  nextRowHeader : Option String
  insertFails : Bool
deriving Repr

/-- The staging table: `pending` is what the open transaction sees,
`committed` is what survives `conn.close()` without a commit. -/
structure DbState where
  pending : List StagingRow
  committed : List StagingRow
deriving Repr

/-- Mutable state of the `while True` loop (lines 62-129), plus the event
trace and the count of `requests.post` fetches performed. -/
structure LoopState where
  firstRowNumber : Int
  totalLoaded : Nat
  db : DbState
  events : List Event
  fetches : Nat
deriving Repr

/-- Accumulated value of the digit characters of the literal. -/
def digitsToNat (l : List Char) : Nat :=
  l.foldl (fun acc c => acc * 10 + (c.toNat - 48)) 0

/-- Python `int(s)` for base 10: surrounding whitespace stripped, one
optional sign, then at least one digit; anything else raises `ValueError`
(returns `none` here). -/
def pyInt (s : String) : Option Int :=
  match ((s.data.dropWhile Char.isWhitespace).reverse.dropWhile
      Char.isWhitespace).reverse with
  | [] => Option.none
  | c :: cs =>
    let digits : List Char := if c = '-' || c = '+' then cs else c :: cs
    if digits.isEmpty = false && digits.all Char.isDigit then
      Option.some (if c = '-' then -(digitsToNat digits : Int) else (digitsToNat digits : Int))
    else Option.none

/-- One pass of lines 111-122: bulk insert and commit when
`rows_to_insert` is non-empty. -/
def loadBatch (st : LoopState) (rows : List StagingRow) (fails : Bool) :
    LoopState × Except PyExc Unit :=
  if rows.isEmpty then (st, Except.ok ())
  else
    let st1 : LoopState := { st with events := st.events ++ [Event.insert rows] }
    if fails then (st1, Except.error PyExc.dbError)
    else
      ({ st1 with
          db := { pending := st1.db.pending ++ rows,
                  committed := st1.db.pending ++ rows },
          events := st1.events ++ [Event.commit],
          totalLoaded := st1.totalLoaded + rows.length },
        Except.ok ())

/-- The pagination loop (lines 66-129), consuming the finite oracle of
page responses in order.  `Except.ok` is reaching a `break`; an
`Except.error` is an exception propagating to the handler at line 136. -/
def runLoop : List PageResponse → LoopState → LoopState × Except PyExc Unit
  | [], st => (st, Except.error PyExc.noMoreResponses)
  | p :: rest, st =>
    -- response = requests.post(URL, json=payload, auth=AUTH)
    let st1 : LoopState :=
      { st with events := st.events ++ [Event.apiCall st.firstRowNumber],
                fetches := st.fetches + 1 }
    -- response.raise_for_status()
    if 400 ≤ p.status then (st1, Except.error (PyExc.httpError p.status))
    -- if not data: break
    else if truthy p.data = false then (st1, Except.ok ())
    else
      match pageRows p.data with
      | Except.error exc => (st1, Except.error exc)
      | Except.ok rows =>
        match loadBatch st1 rows p.insertFails with
        | (st2, Except.error exc) => (st2, Except.error exc)
        | (st2, Except.ok _) =>
          -- next_row = response.headers.get('X-Next-Row-Number')
          match p.nextRowHeader with
          | Option.none => (st2, Except.ok ())
          | Option.some s =>
            -- if next_row: first_row_number = int(next_row)  else: break
            if s = "" then (st2, Except.ok ())
            else
              match pyInt s with
              | Option.none => (st2, Except.error (PyExc.valueError s))
              | Option.some n => runLoop rest { st2 with firstRowNumber := n }

/-- The three required environment settings (`os.environ[...]`, lines 35-37). -/
structure Env where
  togglApiToken : Option String
  togglWorkspaceId : Option String
  sqlConnectionString : Option String

/-- The inbound HTTP request: `req.get_json()` either raises `ValueError`
(body not valid JSON, carrying the runtime's message) or yields a JSON
object's fields. -/
structure Request where
  body : Except String (List (String × JVal))

structure HttpResponse where
  body : String
  status : Nat
deriving Repr

/-- What one invocation produces: the HTTP response, the trace of outbound
and database events, the committed staging-table contents after the
session is closed, and the number of upstream fetches performed. -/
structure RunResult where
  response : HttpResponse
  events : List Event
  table : List StagingRow
  fetches : Nat
deriving Repr

/-- Message text of an exception reaching the line-136 handler. -/
def excMsg : PyExc → String
  | PyExc.keyError k => "'" ++ k ++ "'"
  | PyExc.valueError s => "invalid literal for int() with base 10: '" ++ s ++ "'"
  | PyExc.httpError n => "HTTP status " ++ toString n
  | PyExc.typeError => "TypeError"
  | PyExc.attributeError => "AttributeError"
  | PyExc.dbError => "database error"
  | PyExc.connectError => "connection failed"
  | PyExc.noMoreResponses => "no response"

/-- Loop state at line 64: cursor 1, nothing loaded, staging just
truncated and the truncation committed. -/
def initState : LoopState :=
  { firstRowNumber := 1, totalLoaded := 0,
    db := { pending := [], committed := [] },
    events := [Event.connect, Event.truncate, Event.commit],
    fetches := 0 }

/-- Body of the line-131 success response. -/
def successMsg (n : Nat) : String :=
  "Success. Loaded " ++ toString n ++ " records into Staging."

/-- The HTTP handler `ingest_toggl_data` (lines 30-143).  `connectFails`
is the storage oracle for `pyodbc.connect`; `pages` is the oracle of
upstream responses.  The `finally` block closes the session whenever the
connection was opened. -/
def ingest_toggl_data (env : Env) (req : Request) (connectFails : Bool)
    (pages : List PageResponse) : RunResult :=
  -- 1. Configuration: os.environ[...] raises KeyError on the first missing key
  match env.togglApiToken with
  | Option.none =>
    ⟨⟨"Missing config: 'TOGGL_API_TOKEN'", 500⟩, [], [], 0⟩
  | Option.some _ =>
  match env.togglWorkspaceId with
  | Option.none =>
    ⟨⟨"Missing config: 'TOGGL_WORKSPACE_ID'", 500⟩, [], [], 0⟩
  | Option.some _ =>
  match env.sqlConnectionString with
  | Option.none =>
    ⟨⟨"Missing config: 'SqlConnectionString'", 500⟩, [], [], 0⟩
  | Option.some _ =>
  -- 2. Dates from the request body
  match req.body with
  | Except.error msg => ⟨⟨"Invalid Body: " ++ msg, 400⟩, [], [], 0⟩
  | Except.ok fields =>
    if !truthy (getKey fields "start_date") || !truthy (getKey fields "end_date") then
      ⟨⟨"Invalid Body: Missing start_date or end_date", 400⟩, [], [], 0⟩
    else
    -- 3. Connect to SQL & truncate staging; conn stays None on connect failure,
    -- so the finally block closes nothing
    if connectFails then
      ⟨⟨"Error: " ++ excMsg PyExc.connectError, 500⟩, [], [], 0⟩
    else
      match runLoop pages initState with
      | (st, Except.ok _) =>
        ⟨⟨successMsg st.totalLoaded, 200⟩,
          st.events ++ [Event.close], st.db.committed, st.fetches⟩
      | (st, Except.error exc) =>
        ⟨⟨"Error: " ++ excMsg exc, 500⟩,
          st.events ++ [Event.close], st.db.committed, st.fetches⟩

/-! ## Infrastructure for reasoning about runs -/

/-- Specification of one fully successful loop iteration: the page served,
the rows its entries flatten to, and the cursor it hands to the next
iteration. -/
structure PageSpec where
  page : PageResponse
  rows : List StagingRow
  next : Int

/-- A page the loop consumes and then continues past: success status,
truthy data, clean flattening, clean insert, and a truthy header that
parses as an integer. -/
def GoodStep (sp : PageSpec) : Prop :=
  sp.page.status < 400 ∧ truthy sp.page.data = true ∧
  pageRows sp.page.data = Except.ok sp.rows ∧ sp.page.insertFails = false ∧
  ∃ s, sp.page.nextRowHeader = Option.some s ∧ s ≠ "" ∧ pyInt s = Option.some sp.next

/-- Loop-state transformer of one good iteration. -/
def stepGood (st : LoopState) (sp : PageSpec) : LoopState :=
  { firstRowNumber := sp.next,
    totalLoaded := st.totalLoaded + sp.rows.length,
    db := if sp.rows.isEmpty then st.db
          else { pending := st.db.pending ++ sp.rows,
                 committed := st.db.pending ++ sp.rows },
    events := st.events ++ [Event.apiCall st.firstRowNumber] ++
              (if sp.rows.isEmpty then [] else [Event.insert sp.rows, Event.commit]),
    fetches := st.fetches + 1 }

/-- The kinds of event the pagination loop itself can emit: fetches,
commits, and inserts of non-empty batches only. -/
def loopEmitted (e : Event) : Prop :=
  (∃ n, e = Event.apiCall n) ∨ e = Event.commit ∨
  ∃ rows, rows ≠ [] ∧ e = Event.insert rows

lemma loadBatch_eq_of_not_fails (st : LoopState) (rows : List StagingRow) :
    loadBatch st rows false =
      (if rows.isEmpty then st
       else { st with
               db := { pending := st.db.pending ++ rows,
                       committed := st.db.pending ++ rows },
               events := st.events ++ [Event.insert rows, Event.commit],
               totalLoaded := st.totalLoaded + rows.length },
       Except.ok ()) := by
  unfold loadBatch
  split
  · rfl
  · simp

lemma loadBatch_events (st : LoopState) (rows : List StagingRow) (fails : Bool) :
    ∃ d, (loadBatch st rows fails).1.events = st.events ++ d ∧
      ∀ e ∈ d, loopEmitted e := by
  unfold loadBatch
  split
  · exact ⟨[], by simp, by simp⟩
  · rename_i hrows
    cases fails with
    | true =>
      refine ⟨[Event.insert rows], by simp, ?_⟩
      intro e he
      simp only [List.mem_singleton] at he
      subst he
      exact Or.inr (Or.inr ⟨rows, by simpa using hrows, rfl⟩)
    | false =>
      refine ⟨[Event.insert rows, Event.commit], by simp, ?_⟩
      intro e he
      rcases List.mem_cons.mp he with h | h
      · exact Or.inr (Or.inr ⟨rows, by simpa using hrows, h⟩)
      · simp only [List.mem_singleton] at h
        subst h
        exact Or.inr (Or.inl rfl)

lemma loadBatch_fetches (st : LoopState) (rows : List StagingRow) (fails : Bool) :
    (loadBatch st rows fails).1.fetches = st.fetches := by
  unfold loadBatch
  split
  · rfl
  · cases fails <;> rfl

lemma loadBatch_committed (st : LoopState) (rows : List StagingRow) :
    (loadBatch st rows true).1.db.committed = st.db.committed := by
  unfold loadBatch
  split <;> rfl

/-- Every extension of the trace made by the loop consists of loop events:
no connect, truncate or close is ever emitted inside the loop, and every
emitted insert carries a non-empty batch. -/
lemma runLoop_events (pages : List PageResponse) :
    ∀ st : LoopState, ∃ d, (runLoop pages st).1.events = st.events ++ d ∧
      ∀ e ∈ d, loopEmitted e := by
  induction pages with
  | nil =>
    intro st
    exact ⟨[], by simp [runLoop], by simp⟩
  | cons p rest ih =>
    intro st
    have hapi : loopEmitted (Event.apiCall st.firstRowNumber) := Or.inl ⟨_, rfl⟩
    simp only [runLoop]
    split
    · exact ⟨[Event.apiCall st.firstRowNumber], by simp, by
        intro e he; simp only [List.mem_singleton] at he; subst he; exact hapi⟩
    · split
      · exact ⟨[Event.apiCall st.firstRowNumber], by simp, by
          intro e he; simp only [List.mem_singleton] at he; subst he; exact hapi⟩
      · split
        · exact ⟨[Event.apiCall st.firstRowNumber], by simp, by
            intro e he; simp only [List.mem_singleton] at he; subst he; exact hapi⟩
        · rename_i rows heq
          split
          · rename_i st2 exc hload
            obtain ⟨d, hd, hdm⟩ := loadBatch_events
              { st with events := st.events ++ [Event.apiCall st.firstRowNumber],
                        fetches := st.fetches + 1 } rows p.insertFails
            rw [hload] at hd
            refine ⟨Event.apiCall st.firstRowNumber :: d, ?_, ?_⟩
            · simpa [List.append_assoc] using hd
            · intro e he
              rcases List.mem_cons.mp he with h | h
              · exact h ▸ hapi
              · exact hdm e h
          · rename_i st2 u hload
            obtain ⟨d, hd, hdm⟩ := loadBatch_events
              { st with events := st.events ++ [Event.apiCall st.firstRowNumber],
                        fetches := st.fetches + 1 } rows p.insertFails
            rw [hload] at hd
            split
            · refine ⟨Event.apiCall st.firstRowNumber :: d, ?_, ?_⟩
              · simpa [List.append_assoc] using hd
              · intro e he
                rcases List.mem_cons.mp he with h | h
                · exact h ▸ hapi
                · exact hdm e h
            · rename_i s hs
              split
              · refine ⟨Event.apiCall st.firstRowNumber :: d, ?_, ?_⟩
                · simpa [List.append_assoc] using hd
                · intro e he
                  rcases List.mem_cons.mp he with h | h
                  · exact h ▸ hapi
                  · exact hdm e h
              · split
                · refine ⟨Event.apiCall st.firstRowNumber :: d, ?_, ?_⟩
                  · simpa [List.append_assoc] using hd
                  · intro e he
                    rcases List.mem_cons.mp he with h | h
                    · exact h ▸ hapi
                    · exact hdm e h
                · rename_i n hn
                  obtain ⟨d2, hd2, hd2m⟩ := ih { st2 with firstRowNumber := n }
                  refine ⟨Event.apiCall st.firstRowNumber :: (d ++ d2), ?_, ?_⟩
                  · rw [hd2]
                    simp only [LoopState.mk.injEq] at hd ⊢
                    simp [hd, List.append_assoc]
                  · intro e he
                    rcases List.mem_cons.mp he with h | h
                    · exact h ▸ hapi
                    · rcases List.mem_append.mp h with h2 | h2
                      · exact hdm e h2
                      · exact hd2m e h2

/-- A good iteration consumes one page and continues the loop in the
stepped state. -/
lemma runLoop_cons_good (sp : PageSpec) (rest : List PageResponse) (st : LoopState)
    (h : GoodStep sp) :
    runLoop (sp.page :: rest) st = runLoop rest (stepGood st sp) := by
  obtain ⟨h1, h2, h3, h4, s, h5, h6, h7⟩ := h
  have h400 : ¬ 400 ≤ sp.page.status := Nat.not_le.mpr h1
  simp only [runLoop, if_neg h400, h2, h3, h4, h5, h7,
    loadBatch_eq_of_not_fails, Bool.true_eq_false, if_false, if_neg h6]
  by_cases hre : sp.rows.isEmpty
  · have hnil : sp.rows = [] := List.isEmpty_iff.mp hre
    simp only [hre, if_true]
    congr 1
    simp [stepGood, hre, hnil]
  · simp only [hre, if_false]
    congr 1
    simp [stepGood, hre, List.append_assoc]

/-- Unrolling the loop over a chain of good pages. -/
lemma runLoop_chain (specs : List PageSpec) (rest : List PageResponse) :
    ∀ st : LoopState, (∀ sp ∈ specs, GoodStep sp) →
    runLoop (specs.map PageSpec.page ++ rest) st =
      runLoop rest (specs.foldl stepGood st) := by
  induction specs with
  | nil => intro st _; rfl
  | cons sp specs ih =>
    intro st hgood
    have hsp : GoodStep sp := hgood sp (List.mem_cons_self sp specs)
    calc runLoop ((sp :: specs).map PageSpec.page ++ rest) st
        = runLoop (specs.map PageSpec.page ++ rest) (stepGood st sp) :=
          runLoop_cons_good sp _ st hsp
      _ = runLoop rest ((sp :: specs).foldl stepGood st) := by
          rw [ih (stepGood st sp) (fun q hq => hgood q (List.mem_cons_of_mem sp hq))]
          rfl

lemma foldl_stepGood_totalLoaded (specs : List PageSpec) :
    ∀ st : LoopState, (specs.foldl stepGood st).totalLoaded =
      st.totalLoaded + (specs.map (fun sp => sp.rows.length)).sum := by
  induction specs with
  | nil => intro st; simp
  | cons sp specs ih =>
    intro st
    simp only [List.foldl_cons, List.map_cons, List.sum_cons, ih (stepGood st sp)]
    simp [stepGood, Nat.add_assoc]

lemma foldl_stepGood_fetches (specs : List PageSpec) :
    ∀ st : LoopState, (specs.foldl stepGood st).fetches =
      st.fetches + specs.length := by
  induction specs with
  | nil => intro st; simp
  | cons sp specs ih =>
    intro st
    simp only [List.foldl_cons, List.length_cons, ih (stepGood st sp)]
    simp [stepGood]
    omega

/-- A run of good pages keeps the staging table in the committed =
pending state and appends exactly the flattened rows of those pages. -/
lemma foldl_stepGood_db (specs : List PageSpec) :
    ∀ st : LoopState, st.db.pending = st.db.committed →
      (specs.foldl stepGood st).db.pending = (specs.foldl stepGood st).db.committed ∧
      (specs.foldl stepGood st).db.committed =
        st.db.committed ++ (specs.map PageSpec.rows).flatten := by
  induction specs with
  | nil => intro st h; simp [h]
  | cons sp specs ih =>
    intro st h
    have hstep : (stepGood st sp).db.pending = (stepGood st sp).db.committed ∧
        (stepGood st sp).db.committed = st.db.committed ++ sp.rows := by
      by_cases hre : sp.rows.isEmpty
      · have hnil : sp.rows = [] := List.isEmpty_iff.mp hre
        simp [stepGood, hre, h, hnil]
      · simp [stepGood, hre, h]
    obtain ⟨ha, hb⟩ := ih (stepGood st sp) hstep.1
    refine ⟨ha, ?_⟩
    simp only [List.foldl_cons] at *
    rw [hb, hstep.2]
    simp [List.append_assoc]

/-! ## Claim theorems -/

/-- A search result whose `time_entries` list is non-empty but which has no
`billable` key: the flattened tuple should, per the spec, carry the integer
`0` in the `billable` position. -/
def billableAbsentEntry : JVal :=
  JVal.obj [("user_id", JVal.num 3),
            ("time_entries", JVal.arr [JVal.obj [("id", JVal.num 7)]])]

/-- C1: the claim says the `billable` field of the produced row is exactly
the integer 1 when the raw value is truthy and exactly 0 otherwise.  The
code computes `is_billable = 1 if entry.get('billable') else 0` (line 94)
but never uses it: line 102 stores the raw `entry.get('billable')`.  On an
entry with no `billable` key the row's billable field is the raw null, not
the integer 0 the claim (and the source's own line-93 comment) requires. -/
theorem C1_billable_not_normalized :
    ∃ r : StagingRow,
      flattenEntry billableAbsentEntry = Except.ok (Option.some r) ∧
      r.billable = JVal.null ∧
      r.billable ≠ JVal.num 0 ∧ r.billable ≠ JVal.num 1 := by
  refine ⟨_, rfl, rfl, ?_, ?_⟩ <;> intro h <;> cases h

/-- C4: the flattener. (i) An absent (`null`-valued lookup) or empty
`time_entries` list yields no row and no error. (ii) A `time_entries` list
whose head is a detail object yields exactly one row: the detail fields
(`toggl_time_entry_id`, `start_time`, `stop_time`, `duration_seconds`,
`updated_at`) come from that first element, the rest from the result
itself, in the fixed positional order of the staging schema, with every
missing key resolving to null instead of an error. -/
theorem C4_flattener_shape (fields : List (String × JVal)) :
    ((getKey fields "time_entries" = JVal.null ∨
      getKey fields "time_entries" = JVal.arr []) →
      flattenEntry (JVal.obj fields) = Except.ok Option.none) ∧
    (∀ (dfields : List (String × JVal)) (ds : List JVal),
      getKey fields "time_entries" = JVal.arr (JVal.obj dfields :: ds) →
      ∃ r : StagingRow,
        flattenEntry (JVal.obj fields) = Except.ok (Option.some r) ∧
        r.toTuple =
          [getKey dfields "id", getKey fields "user_id",
           getKey fields "project_id", getKey fields "task_id",
           getKey fields "billable", getKey fields "description",
           getKey dfields "start", getKey dfields "stop",
           getKey dfields "seconds", getKey dfields "at"]) := by
  constructor
  · intro h
    rcases h with h | h <;> simp [flattenEntry, h, truthy]
  · intro dfields ds h
    refine ⟨⟨getKey dfields "id", getKey fields "user_id", getKey fields "project_id",
      getKey fields "task_id", getKey fields "billable", getKey fields "description",
      getKey dfields "start", getKey dfields "stop", getKey dfields "seconds",
      getKey dfields "at"⟩, ?_, rfl⟩
    simp [flattenEntry, h, truthy]

/-- Witness for C4: a result with an empty detail list is skipped without
error, and a concrete two-key result with one detail record flattens to
the expected positional tuple. -/
theorem C4_flattener_shape_witness :
    flattenEntry (JVal.obj [("time_entries", JVal.arr [])]) =
      Except.ok Option.none ∧
    ∃ r : StagingRow,
      flattenEntry billableAbsentEntry = Except.ok (Option.some r) ∧
      r.toTuple =
        [JVal.num 7, JVal.num 3, JVal.null, JVal.null, JVal.null,
         JVal.null, JVal.null, JVal.null, JVal.null, JVal.null] :=
  ⟨(C4_flattener_shape [("time_entries", JVal.arr [])]).1 (Or.inr rfl),
   (C4_flattener_shape [("user_id", JVal.num 3),
      ("time_entries", JVal.arr [JVal.obj [("id", JVal.num 7)]])]).2
     [("id", JVal.num 7)] [] rfl⟩

/-- C2: with configuration in place, a request whose body is not valid
JSON, or lacks a truthy `start_date` or `end_date`, is answered with
status 400 and the run performs no outbound API call and no database
operation (empty event trace, no fetches, untouched table). -/
theorem C2_bad_body_rejected (a b c : String) (req : Request) (cf : Bool)
    (pages : List PageResponse)
    (h : (∃ m, req.body = Except.error m) ∨
         ∃ fields, req.body = Except.ok fields ∧
           (truthy (getKey fields "start_date") = false ∨
            truthy (getKey fields "end_date") = false)) :
    (ingest_toggl_data ⟨Option.some a, Option.some b, Option.some c⟩ req cf
        pages).response.status = 400 ∧
    (ingest_toggl_data ⟨Option.some a, Option.some b, Option.some c⟩ req cf
        pages).events = [] ∧
    (ingest_toggl_data ⟨Option.some a, Option.some b, Option.some c⟩ req cf
        pages).fetches = 0 := by
  rcases h with ⟨m, hm⟩ | ⟨fields, hf, hor⟩
  · simp [ingest_toggl_data, hm]
  · rcases hor with h1 | h1 <;> simp [ingest_toggl_data, hf, h1]

/-- Witness for C2: a body missing `end_date` yields 400 with no events. -/
theorem C2_bad_body_rejected_witness :
    (ingest_toggl_data ⟨Option.some "t", Option.some "w", Option.some "c"⟩
        ⟨Except.ok [("start_date", JVal.str "2024-01-01")]⟩ false []).response.status = 400 ∧
    (ingest_toggl_data ⟨Option.some "t", Option.some "w", Option.some "c"⟩
        ⟨Except.ok [("start_date", JVal.str "2024-01-01")]⟩ false []).events = [] ∧
    (ingest_toggl_data ⟨Option.some "t", Option.some "w", Option.some "c"⟩
        ⟨Except.ok [("start_date", JVal.str "2024-01-01")]⟩ false []).fetches = 0 :=
  C2_bad_body_rejected "t" "w" "c" _ false []
    (Or.inr ⟨[("start_date", JVal.str "2024-01-01")], rfl, Or.inr rfl⟩)

/-- The three possible responses of the configuration step (line 42),
one per missing `os.environ` key. -/
def configFailureResponses : List HttpResponse :=
  [⟨"Missing config: 'TOGGL_API_TOKEN'", 500⟩,
   ⟨"Missing config: 'TOGGL_WORKSPACE_ID'", 500⟩,
   ⟨"Missing config: 'SqlConnectionString'", 500⟩]

/-- C3: if any of the three required settings is absent the run answers
with status 500 and performs no network call and no database operation
(empty event trace). -/
theorem C3_missing_config (env : Env) (req : Request) (cf : Bool)
    (pages : List PageResponse)
    (h : env.togglApiToken = Option.none ∨ env.togglWorkspaceId = Option.none ∨
         env.sqlConnectionString = Option.none) :
    (ingest_toggl_data env req cf pages).response.status = 500 ∧
    (ingest_toggl_data env req cf pages).response ∈ configFailureResponses ∧
    (ingest_toggl_data env req cf pages).events = [] ∧
    (ingest_toggl_data env req cf pages).fetches = 0 := by
  obtain ⟨tok, ws, conn⟩ := env
  rcases h with h | h | h <;> simp only at h <;> subst h
  · simp [ingest_toggl_data, configFailureResponses]
  · cases tok <;> simp [ingest_toggl_data, configFailureResponses]
  · cases tok <;> cases ws <;> simp [ingest_toggl_data, configFailureResponses]

/-- Witness for C3: a missing connection string yields 500 with no events. -/
theorem C3_missing_config_witness :
    (ingest_toggl_data ⟨Option.some "t", Option.some "w", Option.none⟩
        ⟨Except.error "ignored"⟩ false []).response.status = 500 ∧
    (ingest_toggl_data ⟨Option.some "t", Option.some "w", Option.none⟩
        ⟨Except.error "ignored"⟩ false []).response ∈ configFailureResponses ∧
    (ingest_toggl_data ⟨Option.some "t", Option.some "w", Option.none⟩
        ⟨Except.error "ignored"⟩ false []).events = [] ∧
    (ingest_toggl_data ⟨Option.some "t", Option.some "w", Option.none⟩
        ⟨Except.error "ignored"⟩ false []).fetches = 0 :=
  C3_missing_config ⟨Option.some "t", Option.some "w", Option.none⟩ _ false []
    (Or.inr (Or.inr rfl))

/-- C9: configuration resolution precedes body validation.  When a
required setting is missing, the response is the 500 configuration
failure — not the 400 client-input failure — even if the body also lacks
the dates, and the whole result is independent of the request (the body is
never parsed). -/
theorem C9_config_before_body (env : Env) (req : Request) (cf : Bool)
    (pages : List PageResponse)
    (henv : env.togglApiToken = Option.none ∨ env.togglWorkspaceId = Option.none ∨
            env.sqlConnectionString = Option.none)
    (_hreq : (∃ m, req.body = Except.error m) ∨
            ∃ fields, req.body = Except.ok fields ∧
              (truthy (getKey fields "start_date") = false ∨
               truthy (getKey fields "end_date") = false)) :
    (ingest_toggl_data env req cf pages).response.status = 500 ∧
    (ingest_toggl_data env req cf pages).response ∈ configFailureResponses ∧
    ∀ req' : Request, ingest_toggl_data env req' cf pages =
      ingest_toggl_data env req cf pages := by
  obtain ⟨tok, ws, conn⟩ := env
  rcases henv with h | h | h <;> simp only at h <;> subst h
  · exact ⟨rfl, by simp [ingest_toggl_data, configFailureResponses], fun req' => rfl⟩
  · cases tok <;>
      exact ⟨rfl, by simp [ingest_toggl_data, configFailureResponses], fun req' => rfl⟩
  · cases tok <;> cases ws <;>
      exact ⟨rfl, by simp [ingest_toggl_data, configFailureResponses], fun req' => rfl⟩

/-- Witness for C9: token missing and body missing both dates gives the
configuration 500, not the 400. -/
theorem C9_config_before_body_witness :
    (ingest_toggl_data ⟨Option.none, Option.some "w", Option.some "c"⟩
        ⟨Except.ok []⟩ false []).response.status = 500 ∧
    (ingest_toggl_data ⟨Option.none, Option.some "w", Option.some "c"⟩
        ⟨Except.ok []⟩ false []).response ∈ configFailureResponses ∧
    ∀ req' : Request, ingest_toggl_data ⟨Option.none, Option.some "w", Option.some "c"⟩
        req' false [] =
      ingest_toggl_data ⟨Option.none, Option.some "w", Option.some "c"⟩
        ⟨Except.ok []⟩ false [] :=
  C9_config_before_body ⟨Option.none, Option.some "w", Option.some "c"⟩
    ⟨Except.ok []⟩ false [] (Or.inl rfl)
    (Or.inr ⟨[], rfl, Or.inl rfl⟩)

/-- With configuration present, a valid body and a successful connect, the
handler is the post-processing of `runLoop` from `initState`. -/
lemma ingest_run (a b c : String) (fields : List (String × JVal))
    (pages : List PageResponse)
    (hs : truthy (getKey fields "start_date") = true)
    (he : truthy (getKey fields "end_date") = true) :
    ingest_toggl_data ⟨Option.some a, Option.some b, Option.some c⟩
        ⟨Except.ok fields⟩ false pages =
      match runLoop pages initState with
      | (st, Except.ok _) =>
        ⟨⟨successMsg st.totalLoaded, 200⟩,
          st.events ++ [Event.close], st.db.committed, st.fetches⟩
      | (st, Except.error exc) =>
        ⟨⟨"Error: " ++ excMsg exc, 500⟩,
          st.events ++ [Event.close], st.db.committed, st.fetches⟩ := by
  simp [ingest_toggl_data, hs, he]

/-- Holds (`true`) exactly on the session-close event. -/
def isCloseEvent : Event → Bool
  | Event.close => true
  | _ => false

/-- Holds (`true`) exactly on the staging-truncation event. -/
def isTruncateEvent : Event → Bool
  | Event.truncate => true
  | _ => false

lemma loopEmitted_not_close {e : Event} (h : loopEmitted e) :
    isCloseEvent e = false := by
  rcases h with ⟨n, h⟩ | h | ⟨rows, _, h⟩ <;> subst h <;> rfl

lemma loopEmitted_not_truncate {e : Event} (h : loopEmitted e) :
    e ≠ Event.truncate := by
  rcases h with ⟨n, h⟩ | h | ⟨rows, _, h⟩ <;> subst h <;> intro hh <;> cases hh

/-- C6: in every run that reaches the database, the trace starts with
connect, truncate, commit, and the truncate never recurs; every insert
event lies strictly after that truncation and carries a non-empty batch
(no insert is issued for a page that flattens to zero rows). -/
theorem C6_truncate_once_before_inserts (a b c : String)
    (fields : List (String × JVal)) (pages : List PageResponse)
    (hs : truthy (getKey fields "start_date") = true)
    (he : truthy (getKey fields "end_date") = true) :
    ∃ tail,
      (ingest_toggl_data ⟨Option.some a, Option.some b, Option.some c⟩
          ⟨Except.ok fields⟩ false pages).events =
        Event.connect :: Event.truncate :: Event.commit :: tail ∧
      (∀ e ∈ tail, e ≠ Event.truncate) ∧
      (∀ rows, Event.insert rows ∈
          (ingest_toggl_data ⟨Option.some a, Option.some b, Option.some c⟩
            ⟨Except.ok fields⟩ false pages).events →
        Event.insert rows ∈ tail ∧ rows ≠ []) := by
  rw [ingest_run a b c fields pages hs he]
  obtain ⟨d, hd, hdm⟩ := runLoop_events pages initState
  rcases hrun : runLoop pages initState with ⟨st, outcome⟩
  rw [hrun] at hd
  have hev : ∀ res : RunResult, res.events = st.events ++ [Event.close] →
      ∃ tail, res.events = Event.connect :: Event.truncate :: Event.commit :: tail ∧
        (∀ e ∈ tail, e ≠ Event.truncate) ∧
        (∀ rows, Event.insert rows ∈ res.events →
          Event.insert rows ∈ tail ∧ rows ≠ []) := by
    intro res hres
    refine ⟨d ++ [Event.close], ?_, ?_, ?_⟩
    · rw [hres, hd]; rfl
    · intro e he
      rcases List.mem_append.mp he with h | h
      · exact loopEmitted_not_truncate (hdm e h)
      · simp only [List.mem_singleton] at h
        subst h
        intro hh
        cases hh
    · intro rows hmem
      rw [hres, hd] at hmem
      have : Event.insert rows ∈ d := by
        have h0 : Event.insert rows ∈
            ([Event.connect, Event.truncate, Event.commit] ++ (d ++ [Event.close])) := by
          simpa [initState, List.append_assoc] using hmem
        rcases List.mem_append.mp h0 with h | h
        · simp at h
        · rcases List.mem_append.mp h with h | h
          · exact h
          · simp only [List.mem_singleton] at h; cases h
      refine ⟨List.mem_append.mpr (Or.inl this), ?_⟩
      rcases hdm _ this with ⟨n, h⟩ | h | ⟨rows2, hr2, h⟩
      · cases h
      · cases h
      · cases h
        exact hr2
  cases outcome with
  | ok u => exact hev _ rfl
  | error exc => exact hev _ rfl

/-- Witness for C6: one successful page; the trace is connect, truncate,
commit, fetch, insert, commit, close. -/
theorem C6_truncate_once_before_inserts_witness :
    ∃ tail,
      (ingest_toggl_data ⟨Option.some "t", Option.some "w", Option.some "c"⟩
          ⟨Except.ok [("start_date", JVal.str "a"), ("end_date", JVal.str "b")]⟩
          false [⟨200, JVal.arr [billableAbsentEntry], Option.none, false⟩]).events =
        Event.connect :: Event.truncate :: Event.commit :: tail ∧
      (∀ e ∈ tail, e ≠ Event.truncate) ∧
      (∀ rows, Event.insert rows ∈
          (ingest_toggl_data ⟨Option.some "t", Option.some "w", Option.some "c"⟩
            ⟨Except.ok [("start_date", JVal.str "a"), ("end_date", JVal.str "b")]⟩
            false [⟨200, JVal.arr [billableAbsentEntry], Option.none, false⟩]).events →
        Event.insert rows ∈ tail ∧ rows ≠ []) :=
  C6_truncate_once_before_inserts "t" "w" "c"
    [("start_date", JVal.str "a"), ("end_date", JVal.str "b")]
    [⟨200, JVal.arr [billableAbsentEntry], Option.none, false⟩] rfl rfl

/-- C8: whenever the run gets as far as opening the database session, the
trace contains exactly one close event and it is the final event — the
session is closed exactly once, on every exit path, before the response
is returned. -/
theorem C8_session_closed_once (a b c : String)
    (fields : List (String × JVal)) (pages : List PageResponse)
    (hs : truthy (getKey fields "start_date") = true)
    (he : truthy (getKey fields "end_date") = true) :
    ((ingest_toggl_data ⟨Option.some a, Option.some b, Option.some c⟩
        ⟨Except.ok fields⟩ false pages).events.countP isCloseEvent = 1) ∧
    ((ingest_toggl_data ⟨Option.some a, Option.some b, Option.some c⟩
        ⟨Except.ok fields⟩ false pages).events.getLast? =
      Option.some Event.close) := by
  rw [ingest_run a b c fields pages hs he]
  obtain ⟨d, hd, hdm⟩ := runLoop_events pages initState
  rcases hrun : runLoop pages initState with ⟨st, outcome⟩
  rw [hrun] at hd
  have hcount : (st.events ++ [Event.close]).countP isCloseEvent = 1 := by
    rw [hd, List.countP_append, List.countP_append]
    have h1 : List.countP isCloseEvent initState.events = 0 := rfl
    have h2 : List.countP isCloseEvent d = 0 := by
      rw [List.countP_eq_zero]
      intro e he
      simpa using loopEmitted_not_close (hdm e he)
    rw [h1, h2]
    rfl
  have hlast : (st.events ++ [Event.close]).getLast? = Option.some Event.close :=
    List.getLast?_concat _
  cases outcome with
  | ok u => exact ⟨hcount, hlast⟩
  | error exc => exact ⟨hcount, hlast⟩

/-- Witness for C8: a failing upstream page still ends with a single
close event. -/
theorem C8_session_closed_once_witness :
    ((ingest_toggl_data ⟨Option.some "t", Option.some "w", Option.some "c"⟩
        ⟨Except.ok [("start_date", JVal.str "a"), ("end_date", JVal.str "b")]⟩
        false [⟨500, JVal.null, Option.none, false⟩]).events.countP isCloseEvent = 1) ∧
    ((ingest_toggl_data ⟨Option.some "t", Option.some "w", Option.some "c"⟩
        ⟨Except.ok [("start_date", JVal.str "a"), ("end_date", JVal.str "b")]⟩
        false [⟨500, JVal.null, Option.none, false⟩]).events.getLast? =
      Option.some Event.close) :=
  C8_session_closed_once "t" "w" "c"
    [("start_date", JVal.str "a"), ("end_date", JVal.str "b")]
    [⟨500, JVal.null, Option.none, false⟩] rfl rfl

lemma loadBatch_fails_eq (st : LoopState) (rows : List StagingRow)
    (h : rows ≠ []) :
    loadBatch st rows true =
      ({ st with events := st.events ++ [Event.insert rows] },
        Except.error PyExc.dbError) := by
  have hre : rows.isEmpty = false := by simpa [List.isEmpty_iff] using h
  unfold loadBatch
  rw [hre]
  rfl

/-- C7: a run that fails at page N — upstream non-success status or a
storage failure on that page's insert — after pages 1..N-1 went through,
answers 500 while the staging table still holds exactly the rows committed
for those earlier pages: no rollback or compensating delete happens. -/
theorem C7_committed_pages_survive (a b c : String)
    (fields : List (String × JVal)) (specs : List PageSpec)
    (bad : PageResponse) (rest : List PageResponse)
    (hs : truthy (getKey fields "start_date") = true)
    (he : truthy (getKey fields "end_date") = true)
    (hgood : ∀ sp ∈ specs, GoodStep sp)
    (hbad : 400 ≤ bad.status ∨
      (bad.status < 400 ∧ truthy bad.data = true ∧
       ∃ rows, pageRows bad.data = Except.ok rows ∧ rows ≠ [] ∧
         bad.insertFails = true)) :
    (ingest_toggl_data ⟨Option.some a, Option.some b, Option.some c⟩
        ⟨Except.ok fields⟩ false
        (specs.map PageSpec.page ++ bad :: rest)).response.status = 500 ∧
    (ingest_toggl_data ⟨Option.some a, Option.some b, Option.some c⟩
        ⟨Except.ok fields⟩ false
        (specs.map PageSpec.page ++ bad :: rest)).table =
      (specs.map PageSpec.rows).flatten := by
  rw [ingest_run a b c fields _ hs he,
    runLoop_chain specs (bad :: rest) initState hgood]
  obtain ⟨hpc, hcom⟩ := foldl_stepGood_db specs initState rfl
  rcases hbad with h400 | ⟨h1, h2, rows, h3, h4, h5⟩
  · have hres : runLoop (bad :: rest) (specs.foldl stepGood initState) =
        ({ specs.foldl stepGood initState with
            events := (specs.foldl stepGood initState).events ++
              [Event.apiCall (specs.foldl stepGood initState).firstRowNumber],
            fetches := (specs.foldl stepGood initState).fetches + 1 },
          Except.error (PyExc.httpError bad.status)) := by
      simp only [runLoop, if_pos h400]
    rw [hres]
    exact ⟨rfl, by simpa using hcom⟩
  · have hres : runLoop (bad :: rest) (specs.foldl stepGood initState) =
        ({ specs.foldl stepGood initState with
            events := (specs.foldl stepGood initState).events ++
              [Event.apiCall (specs.foldl stepGood initState).firstRowNumber] ++
              [Event.insert rows],
            fetches := (specs.foldl stepGood initState).fetches + 1 },
          Except.error PyExc.dbError) := by
      simp only [runLoop, if_neg (Nat.not_le.mpr h1), h2, h3, h5,
        loadBatch_fails_eq _ rows h4]
      simp
    rw [hres]
    exact ⟨rfl, by simpa using hcom⟩

/-- Witness for C7: one committed page of one row, then an upstream 500;
the run reports 500 and the first page's row is still in the table. -/
theorem C7_committed_pages_survive_witness :
    (ingest_toggl_data ⟨Option.some "t", Option.some "w", Option.some "c"⟩
        ⟨Except.ok [("start_date", JVal.str "a"), ("end_date", JVal.str "b")]⟩ false
        ([⟨⟨200, JVal.arr [billableAbsentEntry], Option.some "51", false⟩,
            [⟨JVal.num 7, JVal.num 3, JVal.null, JVal.null, JVal.null, JVal.null,
              JVal.null, JVal.null, JVal.null, JVal.null⟩], 51⟩].map PageSpec.page ++
          ⟨500, JVal.null, Option.none, false⟩ :: [])).response.status = 500 ∧
    (ingest_toggl_data ⟨Option.some "t", Option.some "w", Option.some "c"⟩
        ⟨Except.ok [("start_date", JVal.str "a"), ("end_date", JVal.str "b")]⟩ false
        ([⟨⟨200, JVal.arr [billableAbsentEntry], Option.some "51", false⟩,
            [⟨JVal.num 7, JVal.num 3, JVal.null, JVal.null, JVal.null, JVal.null,
              JVal.null, JVal.null, JVal.null, JVal.null⟩], 51⟩].map PageSpec.page ++
          ⟨500, JVal.null, Option.none, false⟩ :: [])).table =
      ([⟨⟨200, JVal.arr [billableAbsentEntry], Option.some "51", false⟩,
          [⟨JVal.num 7, JVal.num 3, JVal.null, JVal.null, JVal.null, JVal.null,
            JVal.null, JVal.null, JVal.null, JVal.null⟩], 51⟩].map PageSpec.rows).flatten :=
  C7_committed_pages_survive "t" "w" "c"
    [("start_date", JVal.str "a"), ("end_date", JVal.str "b")]
    [⟨⟨200, JVal.arr [billableAbsentEntry], Option.some "51", false⟩,
       [⟨JVal.num 7, JVal.num 3, JVal.null, JVal.null, JVal.null, JVal.null,
         JVal.null, JVal.null, JVal.null, JVal.null⟩], 51⟩]
    ⟨500, JVal.null, Option.none, false⟩ [] rfl rfl
    (by
      intro sp hsp
      simp only [List.mem_singleton] at hsp
      subst hsp
      exact ⟨by decide, rfl, rfl, rfl, "51", rfl, by decide, rfl⟩)
    (Or.inl (by decide))

/-- C5: (i) for a finite sequence of pages — a chain of good pages followed
by a final page with success status that either has no next-cursor header
or carries zero entries — the loop performs exactly one fetch per page and
the reported total is the sum over pages of the number of flattened rows;
(ii) a page with zero entries (falsy data) ends the loop successfully with
no further fetch, whatever pages would follow. -/
theorem C5_pagination_termination (a b c : String)
    (fields : List (String × JVal)) (specs : List PageSpec)
    (last : PageResponse) (lastRows : List StagingRow)
    (p : PageResponse) (rest : List PageResponse) (st : LoopState)
    (hs : truthy (getKey fields "start_date") = true)
    (he : truthy (getKey fields "end_date") = true)
    (hgood : ∀ sp ∈ specs, GoodStep sp)
    (hlast1 : last.status < 400)
    (hlast2 : (truthy last.data = false ∧ lastRows = []) ∨
      (truthy last.data = true ∧ pageRows last.data = Except.ok lastRows ∧
       last.insertFails = false ∧ last.nextRowHeader = Option.none))
    (hp1 : p.status < 400) (hp2 : truthy p.data = false) :
    ((ingest_toggl_data ⟨Option.some a, Option.some b, Option.some c⟩
        ⟨Except.ok fields⟩ false (specs.map PageSpec.page ++ [last])).fetches =
      specs.length + 1 ∧
     (ingest_toggl_data ⟨Option.some a, Option.some b, Option.some c⟩
        ⟨Except.ok fields⟩ false (specs.map PageSpec.page ++ [last])).response =
      ⟨successMsg ((specs.map fun sp => sp.rows.length).sum + lastRows.length),
        200⟩) ∧
    ((runLoop (p :: rest) st).2 = Except.ok () ∧
     (runLoop (p :: rest) st).1.fetches = st.fetches + 1) := by
  have hfe : (specs.foldl stepGood initState).fetches = specs.length := by
    simpa [initState] using foldl_stepGood_fetches specs initState
  have hto : (specs.foldl stepGood initState).totalLoaded =
      (specs.map fun sp => sp.rows.length).sum := by
    simpa [initState] using foldl_stepGood_totalLoaded specs initState
  constructor
  · rw [ingest_run a b c fields _ hs he,
      runLoop_chain specs [last] initState hgood]
    rcases hlast2 with ⟨hfalsy, hnil⟩ | ⟨htruthy, hrows, hfail, hheader⟩
    · have hres : runLoop [last] (specs.foldl stepGood initState) =
          ({ specs.foldl stepGood initState with
              events := (specs.foldl stepGood initState).events ++
                [Event.apiCall (specs.foldl stepGood initState).firstRowNumber],
              fetches := (specs.foldl stepGood initState).fetches + 1 },
            Except.ok ()) := by
        simp only [runLoop, if_neg (Nat.not_le.mpr hlast1), hfalsy]
        simp
      rw [hres]
      subst hnil
      refine ⟨?_, ?_⟩
      · simp [hfe]
      · simp [hto, HttpResponse.mk.injEq]
    · by_cases hre : lastRows.isEmpty
      · have hnil : lastRows = [] := List.isEmpty_iff.mp hre
        subst hnil
        have hres : runLoop [last] (specs.foldl stepGood initState) =
            ({ specs.foldl stepGood initState with
                events := (specs.foldl stepGood initState).events ++
                  [Event.apiCall (specs.foldl stepGood initState).firstRowNumber],
                fetches := (specs.foldl stepGood initState).fetches + 1 },
              Except.ok ()) := by
          simp only [runLoop, if_neg (Nat.not_le.mpr hlast1), htruthy, hrows,
            hfail, hheader, loadBatch_eq_of_not_fails]
          simp
        rw [hres]
        exact ⟨by simp [hfe], by simp [hto, HttpResponse.mk.injEq]⟩
      · have hres : runLoop [last] (specs.foldl stepGood initState) =
            ({ specs.foldl stepGood initState with
                totalLoaded := (specs.foldl stepGood initState).totalLoaded +
                  lastRows.length,
                db := { pending :=
                          (specs.foldl stepGood initState).db.pending ++ lastRows,
                        committed :=
                          (specs.foldl stepGood initState).db.pending ++ lastRows },
                events := (specs.foldl stepGood initState).events ++
                  [Event.apiCall (specs.foldl stepGood initState).firstRowNumber,
                   Event.insert lastRows, Event.commit],
                fetches := (specs.foldl stepGood initState).fetches + 1 },
              Except.ok ()) := by
          simp only [runLoop, if_neg (Nat.not_le.mpr hlast1), htruthy, hrows,
            hfail, hheader, loadBatch_eq_of_not_fails]
          simp [hre]
        rw [hres]
        exact ⟨by simp [hfe], by simp [hto, HttpResponse.mk.injEq]⟩
  · refine ⟨?_, ?_⟩ <;>
      simp only [runLoop, if_neg (Nat.not_le.mpr hp1), hp2] <;> simp

/-- A good page serving one flattenable entry and a next-cursor of 51. -/
def goodPage1 : PageResponse :=
  ⟨200, JVal.arr [billableAbsentEntry], Option.some "51", false⟩

/-- The row `billableAbsentEntry` flattens to. -/
def row7 : StagingRow :=
  ⟨JVal.num 7, JVal.num 3, JVal.null, JVal.null, JVal.null, JVal.null,
   JVal.null, JVal.null, JVal.null, JVal.null⟩

def goodSpec1 : PageSpec := ⟨goodPage1, [row7], 51⟩

/-- Witness for C5: one good page then an empty final page — two fetches,
total 1; and a zero-entry page stops the loop after its own fetch. -/
theorem C5_pagination_termination_witness :
    ((ingest_toggl_data ⟨Option.some "t", Option.some "w", Option.some "c"⟩
        ⟨Except.ok [("start_date", JVal.str "a"), ("end_date", JVal.str "b")]⟩ false
        ([goodSpec1].map PageSpec.page ++
          [⟨200, JVal.arr [], Option.none, false⟩])).fetches =
      [goodSpec1].length + 1 ∧
     (ingest_toggl_data ⟨Option.some "t", Option.some "w", Option.some "c"⟩
        ⟨Except.ok [("start_date", JVal.str "a"), ("end_date", JVal.str "b")]⟩ false
        ([goodSpec1].map PageSpec.page ++
          [⟨200, JVal.arr [], Option.none, false⟩])).response =
      ⟨successMsg (([goodSpec1].map fun sp => sp.rows.length).sum +
          ([] : List StagingRow).length), 200⟩) ∧
    ((runLoop (⟨200, JVal.arr [], Option.some "boom", false⟩ ::
        [⟨200, JVal.null, Option.none, false⟩]) initState).2 = Except.ok () ∧
     (runLoop (⟨200, JVal.arr [], Option.some "boom", false⟩ ::
        [⟨200, JVal.null, Option.none, false⟩]) initState).1.fetches =
      initState.fetches + 1) :=
  C5_pagination_termination "t" "w" "c"
    [("start_date", JVal.str "a"), ("end_date", JVal.str "b")]
    [goodSpec1] ⟨200, JVal.arr [], Option.none, false⟩ []
    ⟨200, JVal.arr [], Option.some "boom", false⟩
    [⟨200, JVal.null, Option.none, false⟩] initState
    rfl rfl
    (by
      intro sp hsp
      simp only [List.mem_singleton] at hsp
      subst hsp
      exact ⟨by decide, rfl, rfl, rfl, "51", rfl, by decide, rfl⟩)
    (by decide) (Or.inl ⟨rfl, rfl⟩) (by decide) rfl

/-- Reaching a page with truthy data whose `X-Next-Row-Number` header is
present, non-empty and not an integer literal makes the iteration raise —
whatever the flattening and the insert do — after exactly its own fetch. -/
lemma runLoop_bad_header (p : PageResponse) (rest : List PageResponse)
    (st : LoopState) (s : String)
    (hp1 : p.status < 400) (hp2 : truthy p.data = true)
    (hh : p.nextRowHeader = Option.some s) (hne : s ≠ "")
    (hbad : pyInt s = Option.none) :
    ∃ st' exc, runLoop (p :: rest) st = (st', Except.error exc) ∧
      st'.fetches = st.fetches + 1 := by
  simp only [runLoop, if_neg (Nat.not_le.mpr hp1),
    if_neg (show ¬(truthy p.data = false) by simp [hp2])]
  rcases hpr : pageRows p.data with exc | rows
  · simp only [hpr]
    exact ⟨_, _, rfl, rfl⟩
  · simp only [hpr]
    rcases hlb : loadBatch
        { st with events := st.events ++ [Event.apiCall st.firstRowNumber],
                  fetches := st.fetches + 1 } rows p.insertFails with ⟨st2, out⟩
    have hf2 : st2.fetches = st.fetches + 1 := by
      have hlf := loadBatch_fetches
        { st with events := st.events ++ [Event.apiCall st.firstRowNumber],
                  fetches := st.fetches + 1 } rows p.insertFails
      rw [hlb] at hlf
      exact hlf
    cases out with
    | error exc => exact ⟨st2, exc, rfl, hf2⟩
    | ok u =>
      simp only [hh, if_neg hne, hbad]
      exact ⟨st2, PyExc.valueError s, rfl, hf2⟩

/-- C10 (amended): when the loop reaches a page with non-empty data whose
next-cursor header is present, non-empty, and not parseable as a decimal
integer, the run aborts with a 500 response without requesting a further
page.  (As literally claimed it is false: a present-but-empty header value
is falsy at line 126 and ends the loop successfully — see the
counterexample.) -/
theorem C10_nonempty_nonint_header_aborts (a b c : String)
    (fields : List (String × JVal)) (specs : List PageSpec)
    (p : PageResponse) (rest : List PageResponse) (s : String)
    (hs : truthy (getKey fields "start_date") = true)
    (he : truthy (getKey fields "end_date") = true)
    (hgood : ∀ sp ∈ specs, GoodStep sp)
    (hp1 : p.status < 400) (hp2 : truthy p.data = true)
    (hh : p.nextRowHeader = Option.some s) (hne : s ≠ "")
    (hbad : pyInt s = Option.none) :
    (ingest_toggl_data ⟨Option.some a, Option.some b, Option.some c⟩
        ⟨Except.ok fields⟩ false
        (specs.map PageSpec.page ++ p :: rest)).response.status = 500 ∧
    (ingest_toggl_data ⟨Option.some a, Option.some b, Option.some c⟩
        ⟨Except.ok fields⟩ false
        (specs.map PageSpec.page ++ p :: rest)).fetches = specs.length + 1 := by
  have hfe : (specs.foldl stepGood initState).fetches = specs.length := by
    simpa [initState] using foldl_stepGood_fetches specs initState
  rw [ingest_run a b c fields _ hs he,
    runLoop_chain specs (p :: rest) initState hgood]
  obtain ⟨st', exc, hres, hf⟩ :=
    runLoop_bad_header p rest (specs.foldl stepGood initState) s hp1 hp2 hh hne hbad
  rw [hres]
  exact ⟨rfl, by simp [hf, hfe]⟩

/-- Witness for the amended C10: a single page with one entry and header
value `"abc"` gives a 500 after exactly one fetch. -/
theorem C10_nonempty_nonint_header_aborts_witness :
    (ingest_toggl_data ⟨Option.some "t", Option.some "w", Option.some "c"⟩
        ⟨Except.ok [("start_date", JVal.str "a"), ("end_date", JVal.str "b")]⟩ false
        (([] : List PageSpec).map PageSpec.page ++
          ⟨200, JVal.arr [billableAbsentEntry], Option.some "abc", false⟩ ::
            [])).response.status = 500 ∧
    (ingest_toggl_data ⟨Option.some "t", Option.some "w", Option.some "c"⟩
        ⟨Except.ok [("start_date", JVal.str "a"), ("end_date", JVal.str "b")]⟩ false
        (([] : List PageSpec).map PageSpec.page ++
          ⟨200, JVal.arr [billableAbsentEntry], Option.some "abc", false⟩ ::
            [])).fetches = ([] : List PageSpec).length + 1 :=
  C10_nonempty_nonint_header_aborts "t" "w" "c"
    [("start_date", JVal.str "a"), ("end_date", JVal.str "b")] []
    ⟨200, JVal.arr [billableAbsentEntry], Option.some "abc", false⟩ [] "abc"
    rfl rfl (by intro sp hsp; cases hsp)
    (by decide) rfl rfl (by decide) rfl

/-- A page whose next-cursor header is present but empty. -/
def emptyHeaderPage : PageResponse :=
  ⟨200, JVal.arr [billableAbsentEntry], Option.some "", false⟩

/-- Counterexample to C10 as stated: the header value `""` is present and
is not a decimal integer (`int("")` raises), yet the run finishes with
status 200 — the `if next_row:` truthiness test at line 126 treats the
empty string as "no more pages" and never tries to parse it. -/
theorem C10_counterexample_empty_header :
    emptyHeaderPage.nextRowHeader = Option.some "" ∧
    pyInt "" = Option.none ∧
    (ingest_toggl_data ⟨Option.some "t", Option.some "w", Option.some "c"⟩
        ⟨Except.ok [("start_date", JVal.str "a"), ("end_date", JVal.str "b")]⟩ false
        [emptyHeaderPage]).response.status = 200 ∧
    (ingest_toggl_data ⟨Option.some "t", Option.some "w", Option.some "c"⟩
        ⟨Except.ok [("start_date", JVal.str "a"), ("end_date", JVal.str "b")]⟩ false
        [emptyHeaderPage]).response.status ≠ 500 :=
  ⟨rfl, rfl, rfl, by decide⟩

end TogglPipeline
